import Mathlib

/-!
Shallow embedding of the tool wrappers defined in the two notebooks of this
repository (`09-BingChatClone.ipynb` and the API-search notebook), together
with a model of the external agent loop and `APIChain` pipeline as the design
specification describes them.  Pure Python functions become Lean functions;
the external side effects (HTTP, the search provider, the LLM oracle) are
passed in explicitly as function parameters, and each embedded `_run` method
additionally returns the log of external requests it issued, so that "issues
exactly one request" becomes a provable statement.
-/

namespace Spec2Proof

/-- A Python exception object: its class name and its message. -/
structure PyExn where
  kind : String
  msg : String
deriving DecidableEq, Repr

/-- A Python value returned by a tool body: either a `str`, or — because the
`except` blocks in the source execute `response = e` — the caught exception
object itself. -/
inductive PyVal where
  | str (s : String)
  | exn (e : PyExn)
deriving DecidableEq, Repr

/-- Whether a returned Python value is a string (a textual observation). -/
def PyVal.isStr : PyVal → Bool
  | .str _ => true
  | .exn _ => false

/-! ## `parse_html` and `fetch_web_page` (09-BingChatClone.ipynb)

`parse_html` runs `BeautifulSoup(content, 'html.parser').get_text()`.
`get_text()` concatenates the visible character data of the parse tree: the
markup between `<` and `>` is consumed as tags, and — since Beautiful Soup
4.9.0, with the `html.parser` tree builder — the contents of `script` and
`style` elements are stored as `Script`/`Stylesheet` strings which
`get_text()` ignores.  We embed this at the tokenizer level with a small
state machine: ordinary character data is kept, tag markup is dropped, and
after an opening `script`/`style` tag the scanner is in raw-text mode,
dropping everything up to the matching close tag. -/

/-- Scanner state for the embedded `get_text()`.
`data`: outside markup, characters are kept.
`tagOpen`: inside `<...>`, accumulating the (lowercased) tag name until its
first non-alphabetic character.
`rawText`: inside the raw content of a `script`/`style` element named
`tagName`, dropping characters.
`rawLt`: in raw content, just after a `<`.
`rawClose`: in raw content, matching the characters of `</tagName`;
`remaining` is the part of the name still to match.
`closing`: the close tag is matched, skipping to its `>`. -/
inductive ScanState where
  | data
  | tagOpen (nameAcc : List Char) (nameDone : Bool)
  | rawText (tagName : List Char)
  | rawLt (tagName : List Char)
  | rawClose (tagName : List Char) (remaining : List Char)
  | closing
deriving DecidableEq, Repr

/-- The element name `script`, whose contents `get_text()` ignores. -/
def scriptName : List Char := ['s', 'c', 'r', 'i', 'p', 't']

/-- The element name `style`, whose contents `get_text()` ignores. -/
def styleName : List Char := ['s', 't', 'y', 'l', 'e']

/-- Character scanner for the embedded `get_text()`: keeps character data,
drops `<...>` markup, and drops the raw contents of `script` and `style`
elements up to and including their close tag. -/
def getTextAux : ScanState → List Char → List Char
  | _, [] => []
  | .data, c :: cs =>
    if c = '<' then getTextAux (.tagOpen [] false) cs
    else c :: getTextAux .data cs
  | .tagOpen nameAcc nameDone, c :: cs =>
    if c = '>' then
      if nameAcc = scriptName then getTextAux (.rawText scriptName) cs
      else if nameAcc = styleName then getTextAux (.rawText styleName) cs
      else getTextAux .data cs
    else if c.isAlpha && !nameDone then
      getTextAux (.tagOpen (nameAcc ++ [c.toLower]) false) cs
    else getTextAux (.tagOpen nameAcc true) cs
  | .rawText tagName, c :: cs =>
    if c = '<' then getTextAux (.rawLt tagName) cs
    else getTextAux (.rawText tagName) cs
  | .rawLt tagName, c :: cs =>
    if c = '/' then getTextAux (.rawClose tagName tagName) cs
    else if c = '<' then getTextAux (.rawLt tagName) cs
    else getTextAux (.rawText tagName) cs
  | .rawClose tagName remaining, c :: cs =>
    match remaining with
    | [] => if c = '>' then getTextAux .data cs else getTextAux .closing cs
    | r :: rs =>
      if c.toLower = r then getTextAux (.rawClose tagName rs) cs
      else getTextAux (.rawText tagName) cs
  | .closing, c :: cs =>
    if c = '>' then getTextAux .data cs
    else getTextAux .closing cs

/-- Embedding of `parse_html(content)`: `BeautifulSoup(content,
'html.parser').get_text()` — tag markup removed and the contents of
`script`/`style` elements ignored; the remaining character data is kept. -/
def parse_html (content : String) : String :=
  ⟨getTextAux .data content.data⟩

/-- Embedding of `fetch_web_page(url)`: perform the HTTP GET (passed in as
`httpGet`, which models `requests.get(url, headers=HEADERS).content`) and
parse the body.  The fixed browser-like header does not influence the value
computed from the response body, so it is not part of the state. -/
def fetch_web_page (httpGet : String → String) (url : String) : String :=
  parse_html (httpGet url)

/-! ## `MyBingSearch` (09-BingChatClone.ipynb) -/

/-- One result from `BingSearchAPIWrapper.results`: a dict with keys
`title`, `snippet` and `link`. -/
structure SearchResult where
  title : String
  snippet : String
  link : String
deriving DecidableEq, Repr

/-- The `MyBingSearch` tool class: class attributes `name = "Searcher"`,
`description = "useful to search the internet.\n"` and the configuration
field `k: int = 5`. -/
structure MyBingSearch where
  name : String := "Searcher"
  description : String := "useful to search the internet.\n"
  k : Nat := 5
deriving DecidableEq, Repr

/-- Embedding of `MyBingSearch._run`: construct `BingSearchAPIWrapper(k=self.k)`
and return `bing.results(query, num_results=self.k)`.  The provider is the
parameter `bingResults : query → num_results → results`. -/
def MyBingSearch_run (t : MyBingSearch) (bingResults : String → Nat → List SearchResult)
    (query : String) : List SearchResult :=
  bingResults query t.k

/-! ## `APIChain` and `MyAPISearch` (API-search notebook) -/

/-- A concrete HTTP request synthesized by the request stage: method and URL. -/
structure APIRequest where
  method : String
  url : String
deriving DecidableEq, Repr

/-- Modelled from the spec: the external framework's `APIChain` (built by
`APIChain.from_llm_and_api_docs`), whose implementation is not part of this
repository; only its construction and its two prompt templates appear in the
notebook.  Per the spec it is a two-stage sub-pipeline: the oracle's request
stage (`request_chain`, the `api_request_chain` prompt) synthesizes one
concrete request from the API documentation and the question, that single
request is issued, and the oracle's answer stage (`answer_chain`, the
`api_answer_chain` prompt) summarizes the raw response.  The second component
of the result is the log of HTTP requests issued during the invocation. -/
def APIChain_invoke
    (request_chain : String → String → APIRequest)
    (answer_chain : String → APIRequest → String → String)
    (httpGet : APIRequest → Except PyExn String)
    (api_docs question : String) : Except PyExn String × List APIRequest :=
  let req := request_chain api_docs question
  match httpGet req with
  | .ok raw => (.ok (answer_chain question req raw), [req])
  | .error e => (.error e, [req])

/-- Embedding of `MyAPISearch._run`: build the `APIChain` from `self.llm` and
`self.api_spec`, invoke it once on the query inside `try/except`, and on an
exception execute `response = e` — returning the exception object itself. -/
def MyAPISearch_run
    (request_chain : String → String → APIRequest)
    (answer_chain : String → APIRequest → String → String)
    (httpGet : APIRequest → Except PyExn String)
    (api_spec query : String) : PyVal × List APIRequest :=
  let r := APIChain_invoke request_chain answer_chain httpGet api_spec query
  (match r.1 with
   | .ok s => .str s
   | .error e => .exn e, r.2)

/-- Embedding of `MyAPISearch._arun`: unconditionally
`raise NotImplementedError("This Tool does not support async")`. -/
def MyAPISearch_arun (query : String) : Except PyExn String :=
  .error ⟨"NotImplementedError", "This Tool does not support async"⟩

/-! ## `MySimpleAPISearch` (API-search notebook) -/

/-- The fixed endpoint of `MySimpleAPISearch._run`. -/
def countdown_url : String := "https://api.countdownapi.com/request"

/-- The `params` dict built by `MySimpleAPISearch._run`: only `search_term`
varies with the query; `api_key` is the caller-supplied key stored on the
tool; `type` and `ebay_domain` are literal constants. -/
def MySimpleAPISearch_params (api_key query : String) : List (String × String) :=
  [("api_key", api_key), ("type", "search"), ("ebay_domain", "ebay.com"),
   ("search_term", query)]

/-- Embedding of `MySimpleAPISearch._run`: one `requests.get` to the fixed
endpoint with the `params` dict — this call sits **outside** the `try` block,
so an exception it raises propagates uncaught (modelled by the outer
`Except`) — then, inside `try/except`, `json.dumps(api_result.json())` (on
exception, `response = e`).  `httpGet` models `requests.get` returning a
response of abstract type `R` or raising; `jsonOf` models `.json()`, which
raises on a malformed body, producing an abstract JSON value of type `J`;
`dumps` models `json.dumps`.  The second component is the log of
(endpoint, params) requests attempted. -/
def MySimpleAPISearch_run {R J : Type}
    (httpGet : String → List (String × String) → Except PyExn R)
    (jsonOf : R → Except PyExn J)
    (dumps : J → String)
    (api_key query : String) :
    Except PyExn PyVal × List (String × List (String × String)) :=
  let ps := MySimpleAPISearch_params api_key query
  ((match httpGet countdown_url ps with
    | .error e => .error e
    | .ok r =>
      .ok (match jsonOf r with
           | .ok j => PyVal.str (dumps j)
           | .error e => PyVal.exn e)), [(countdown_url, ps)])

/-- Embedding of `MySimpleAPISearch._arun`: unconditionally
`raise NotImplementedError("This Tool does not support async")`. -/
def MySimpleAPISearch_arun (query : String) : Except PyExn String :=
  .error ⟨"NotImplementedError", "This Tool does not support async"⟩

/-! ## Tool registries -/

/-- A registered tool's identity: its name and description. -/
structure ToolSpec where
  name : String
  description : String
deriving DecidableEq, Repr

/-- The registry `tools = [MyBingSearch(k=5), web_fetch_tool]` handed to the
agent executor of 09-BingChatClone.ipynb. -/
def bing_tools : List ToolSpec :=
  [⟨"Searcher", "useful to search the internet.\n"⟩,
   ⟨"WebFetcher", "useful to fetch the content of a url"⟩]

/-- The registry `tools = [MyAPISearch(llm=llm, api_spec=..., limit_to_domains=None)]`
of the API-search notebook. -/
def apisearch_tools : List ToolSpec :=
  [⟨"apisearch", "useful when the questions includes the term: apisearch.\n"⟩]

/-- The registry `tools = [MySimpleAPISearch(api_key='demo')]` of the
API-search notebook. -/
def simple_apisearch_tools : List ToolSpec :=
  [⟨"apisearch", "useful when the questions includes the term: apisearch.\n"⟩]

/-! ## The reasoning loop (agent executor)

The loop itself is implemented by the external framework; the notebooks only
construct `AgentExecutor(agent=agent, tools=tools, ...)`.  It is therefore
modelled from the spec's state machine (§4.2). -/

/-- An oracle turn result: either one or more tool-call requests, or a final
answer. -/
inductive OracleResponse where
  | toolCalls (calls : List (String × String))
  | finalAnswer (text : String)
deriving DecidableEq, Repr

/-- Whether an oracle response is a tool-call request. -/
def OracleResponse.isToolCalls : OracleResponse → Bool
  | .toolCalls _ => true
  | .finalAnswer _ => false

/-- A tool invocation requested by the oracle. -/
structure ToolInvocation where
  tool_name : String
  input_payload : String
deriving DecidableEq, Repr

/-- The recorded result of one tool invocation. -/
structure Observation where
  invocation : ToolInvocation
  result : String
deriving DecidableEq, Repr

/-- One recorded turn of the loop: the observations of the tool calls the
oracle requested in that turn, in request order. -/
abbrev Turn := List (ToolInvocation × Observation)

/-- How a loop run terminated. -/
inductive TerminatedBy where
  | answer
  | maxStepsExceeded
  | error
deriving DecidableEq, Repr

/-- The result of one loop run: the final answer when one was produced, the
accumulated transcript of turns, and the termination cause. -/
structure LoopResult where
  final_answer : Option String
  transcript : List Turn
  terminated_by : TerminatedBy
deriving DecidableEq, Repr

/-- Execute the tool calls of one turn in request order, recording one
observation per invocation. -/
def execCalls (tools : String → String → String) (calls : List (String × String)) : Turn :=
  calls.map (fun c => (⟨c.1, c.2⟩, ⟨⟨c.1, c.2⟩, tools c.1 c.2⟩))

/-- Modelled from the spec: the Reasoning Loop state machine of §4.2, whose
implementation (the framework's agent executor) is not part of this
repository.  `fuel` is the number of iterations still allowed.  When the
budget is exhausted the run fails with `MaxStepsExceeded`; an oracle failure
fails the run with `Error`; a final answer terminates with `Answer`; a
tool-call request appends one turn to the transcript and loops. -/
def runLoopAux (oracle : List Turn → Except PyExn OracleResponse)
    (tools : String → String → String) :
    Nat → List Turn → LoopResult
  | 0, transcript => ⟨none, transcript, .maxStepsExceeded⟩
  | fuel + 1, transcript =>
    match oracle transcript with
    | .error _ => ⟨none, transcript, .error⟩
    | .ok (.finalAnswer t) => ⟨some t, transcript, .answer⟩
    | .ok (.toolCalls calls) =>
      runLoopAux oracle tools fuel (transcript ++ [execCalls tools calls])

/-- Modelled from the spec: one full loop run, seeded with an empty
transcript and at most `max_iterations` iterations. -/
def runLoop (oracle : List Turn → Except PyExn OracleResponse)
    (tools : String → String → String) (max_iterations : Nat) : LoopResult :=
  runLoopAux oracle tools max_iterations []

/-! ## `printmd` (both notebooks) -/

/-- Character-level embedding of Python `string.replace("$", "USD ")`: every
occurrence of `'$'` becomes the four characters `USD `. -/
def replaceDollar : List Char → List Char
  | [] => []
  | c :: rest =>
    if c = '$' then 'U' :: 'S' :: 'D' :: ' ' :: replaceDollar rest
    else c :: replaceDollar rest

/-- Embedding of the text transformation performed by
`printmd(string)`: `string.replace("$", "USD ")` is what gets displayed. -/
def printmd_text (s : String) : String :=
  ⟨replaceDollar s.data⟩

/-- Running two calls of the same function on the same input: the shape of a
repeated tool invocation against a static backing resource. -/
def callTwice {α β : Type} (f : α → β) (x : α) : β × β := (f x, f x)

/-! ## Helper lemmas -/

/-- The transcript grows by at most one turn per iteration, so its final
length is bounded by its initial length plus the remaining fuel. -/
lemma runLoopAux_length_le (oracle : List Turn → Except PyExn OracleResponse)
    (tools : String → String → String) :
    ∀ (fuel : Nat) (tr : List Turn),
      (runLoopAux oracle tools fuel tr).transcript.length ≤ tr.length + fuel := by
  intro fuel
  induction fuel with
  | zero => intro tr; simp [runLoopAux]
  | succ n ih =>
    intro tr
    rw [runLoopAux]
    cases h : oracle tr with
    | error e => simp
    | ok r =>
      cases r with
      | finalAnswer t => simp
      | toolCalls calls =>
        simp only
        calc (runLoopAux oracle tools n (tr ++ [execCalls tools calls])).transcript.length
            ≤ (tr ++ [execCalls tools calls]).length + n := ih _
          _ = tr.length + (n + 1) := by simp; omega

/-- When the oracle requests tool calls on every turn, the loop burns its
whole budget: it terminates with `MaxStepsExceeded` and records exactly one
turn per allowed iteration. -/
lemma runLoopAux_all_toolCalls (oracle : List Turn → Except PyExn OracleResponse)
    (tools : String → String → String)
    (h : ∀ tr, ∃ calls, oracle tr = .ok (.toolCalls calls)) :
    ∀ (fuel : Nat) (tr : List Turn),
      (runLoopAux oracle tools fuel tr).terminated_by = .maxStepsExceeded ∧
      (runLoopAux oracle tools fuel tr).transcript.length = tr.length + fuel := by
  intro fuel
  induction fuel with
  | zero => intro tr; simp [runLoopAux]
  | succ n ih =>
    intro tr
    obtain ⟨calls, hc⟩ := h tr
    rw [runLoopAux, hc]
    simp only
    obtain ⟨h1, h2⟩ := ih (tr ++ [execCalls tools calls])
    refine ⟨h1, ?_⟩
    rw [h2]
    simp
    omega

/-- `replaceDollar` leaves no dollar sign in its output. -/
lemma replaceDollar_no_dollar : ∀ l : List Char, '$' ∉ replaceDollar l := by
  intro l
  induction l with
  | nil => simp [replaceDollar]
  | cons c rest ih =>
    rw [replaceDollar]
    by_cases h : c = '$'
    · simp [h, ih]
    · simp [h, ih]
      exact fun hc => h hc.symm

/-! ## Claims -/

/-- Claim C1: the PageFetch tool (`fetch_web_page` composed with
`parse_html`) returns only the visible text of the page, with markup, script
and style content discarded; in particular on the input document
`<html><body>Hello<script>evil()</script></body></html>` the observation
text equals exactly `"Hello"`, and style content is likewise discarded. -/
theorem C1_pagefetch_text :
    parse_html "<html><body>Hello<script>evil()</script></body></html>" = "Hello" ∧
    fetch_web_page (fun _ => "<html><body>Hello<script>evil()</script></body></html>")
      "https://example.com" = "Hello" ∧
    parse_html "<html><head><style>body color red</style></head><body>Hi</body></html>"
      = "Hi" := by
  refine ⟨by decide, by decide, by decide⟩

/-- Claim C2 (counterexample): the claim states that every raising tool
invocation is caught and a string is returned, never a raw exception object.
Both halves fail on concrete inputs: a failing HTTP layer makes
`MyAPISearch._run` return the exception object itself (`response = e`, not a
string), and in `MySimpleAPISearch._run` the `requests.get` call sits outside
the `try` block, so a raising GET propagates uncaught instead of producing
any observation. -/
theorem C2_counterexample :
    ((MyAPISearch_run (fun _ _ => ⟨"GET", "https://api.kraken.com/0/public/Ticker"⟩)
        (fun _ _ raw => raw)
        (fun _ => .error ⟨"Exception", "503 Server Error"⟩)
        "api docs" "price of bitcoin").1).isStr = false ∧
    (MyAPISearch_run (fun _ _ => ⟨"GET", "https://api.kraken.com/0/public/Ticker"⟩)
        (fun _ _ raw => raw)
        (fun _ => .error ⟨"Exception", "503 Server Error"⟩)
        "api docs" "price of bitcoin").1 = PyVal.exn ⟨"Exception", "503 Server Error"⟩ ∧
    (MySimpleAPISearch_run (R := String) (J := String)
        (fun _ _ => .ok "not json")
        (fun _ => .error ⟨"JSONDecodeError", "Expecting value"⟩)
        (fun j => j) "demo" "memory cards").1
      = Except.ok (PyVal.exn ⟨"JSONDecodeError", "Expecting value"⟩) ∧
    (MySimpleAPISearch_run (R := String) (J := String)
        (fun _ _ => .error ⟨"ConnectionError", "connection refused"⟩)
        (fun r => .ok r) (fun j => j) "demo" "memory cards").1
      = Except.error ⟨"ConnectionError", "connection refused"⟩ := by
  exact ⟨rfl, rfl, rfl, rfl⟩

/-- Claim C2 (amended): in `MyAPISearch._run` every exception raised inside
the `try` block (the sleep and the chain invocation) is caught and the caught
exception object itself — not a string — is returned to the agent loop.  In
`MySimpleAPISearch._run` only exceptions raised while decoding or
serializing the response JSON are caught, again with the exception object
itself returned; an exception raised by the HTTP GET propagates uncaught. -/
theorem C2_exception_object_returned :
    (∀ (request_chain : String → String → APIRequest)
       (answer_chain : String → APIRequest → String → String)
       (e : PyExn) (api_spec query : String),
      (MyAPISearch_run request_chain answer_chain (fun _ => .error e) api_spec query).1
        = PyVal.exn e) ∧
    (∀ (R J : Type) (httpGet : String → List (String × String) → Except PyExn R)
       (jsonOf : R → Except PyExn J) (dumps : J → String) (api_key query : String)
       (r : R) (e : PyExn),
      httpGet countdown_url (MySimpleAPISearch_params api_key query) = .ok r →
      jsonOf r = .error e →
      (MySimpleAPISearch_run httpGet jsonOf dumps api_key query).1
        = Except.ok (PyVal.exn e)) ∧
    (∀ (R J : Type) (httpGet : String → List (String × String) → Except PyExn R)
       (jsonOf : R → Except PyExn J) (dumps : J → String) (api_key query : String)
       (e : PyExn),
      httpGet countdown_url (MySimpleAPISearch_params api_key query) = .error e →
      (MySimpleAPISearch_run httpGet jsonOf dumps api_key query).1 = Except.error e) := by
  refine ⟨fun rc ac e api_spec query => rfl, ?_, ?_⟩
  · intro R J httpGet jsonOf dumps api_key query r e h1 h2
    simp [MySimpleAPISearch_run, h1, h2]
  · intro R J httpGet jsonOf dumps api_key query e h
    simp [MySimpleAPISearch_run, h]

/-- Claim C2 (witness): a failing JSON decode is caught and the exception
object returned inside an ordinary return value, while a failing GET
propagates as an uncaught error. -/
theorem C2_witness :
    (MySimpleAPISearch_run (R := String) (J := String)
        (fun _ _ => .ok "not json")
        (fun _ => .error ⟨"JSONDecodeError", "Expecting value line 1"⟩)
        (fun j => j) "demo" "coffee machines").1
      = Except.ok (PyVal.exn ⟨"JSONDecodeError", "Expecting value line 1"⟩) ∧
    (MySimpleAPISearch_run (R := String) (J := String)
        (fun _ _ => .error ⟨"ConnectionError", "name resolution failed"⟩)
        (fun r => .ok r) (fun j => j) "demo" "coffee machines").1
      = Except.error ⟨"ConnectionError", "name resolution failed"⟩ := by
  refine ⟨?_, ?_⟩
  · exact C2_exception_object_returned.2.1 String String (fun _ _ => .ok "not json")
      (fun _ => .error ⟨"JSONDecodeError", "Expecting value line 1"⟩) (fun j => j)
      "demo" "coffee machines" "not json" ⟨"JSONDecodeError", "Expecting value line 1"⟩ rfl rfl
  · exact C2_exception_object_returned.2.2 String String
      (fun _ _ => .error ⟨"ConnectionError", "name resolution failed"⟩)
      (fun r => .ok r) (fun j => j) "demo" "coffee machines"
      ⟨"ConnectionError", "name resolution failed"⟩ rfl

/-- Claim C3: `MyBingSearch` asks the provider for exactly `k` results
(`bing.results(query, num_results=self.k)`), `k` is a configuration field
whose default is 5, each result is a (title, snippet, link) record, and when
the provider honours its contract the tool returns exactly `k` results. -/
theorem C3_bing_topk :
    ({} : MyBingSearch).k = 5 ∧
    (∀ (t : MyBingSearch) (bingResults : String → Nat → List SearchResult) (query : String),
      MyBingSearch_run t bingResults query = bingResults query t.k) ∧
    (∀ (t : MyBingSearch) (bingResults : String → Nat → List SearchResult) (query : String),
      (∀ q n, (bingResults q n).length = n) →
      (MyBingSearch_run t bingResults query).length = t.k) := by
  refine ⟨rfl, fun t br q => rfl, fun t br q h => h q t.k⟩

/-- Claim C3 (witness): with the default configuration and a provider that
returns as many results as requested, the tool returns exactly 5 results. -/
theorem C3_witness :
    (MyBingSearch_run {} (fun _ n => List.replicate n ⟨"t", "s", "u"⟩) "coffee").length = 5 := by
  exact C3_bing_topk.2.2 {} (fun _ n => List.replicate n ⟨"t", "s", "u"⟩) "coffee"
    (fun q n => by simp)

/-- Claim C4: one invocation of `MyAPISearch` is exactly the spec-modelled
two-stage `APIChain` pipeline — the request stage synthesizes one concrete
request from the API documentation and the query, exactly that one request is
issued (the request log is the singleton of the synthesized request, so there
is no second request, no multi-endpoint orchestration and no retry), and on a
successful response the returned observation is the answer stage's summary of
the raw response. -/
theorem C4_apichain_two_stage :
    ∀ (request_chain : String → String → APIRequest)
      (answer_chain : String → APIRequest → String → String)
      (httpGet : APIRequest → Except PyExn String)
      (api_spec query : String),
      (MyAPISearch_run request_chain answer_chain httpGet api_spec query).2
        = [request_chain api_spec query] ∧
      (MyAPISearch_run request_chain answer_chain httpGet api_spec query).2.length = 1 ∧
      (∀ raw, httpGet (request_chain api_spec query) = .ok raw →
        (MyAPISearch_run request_chain answer_chain httpGet api_spec query).1
          = PyVal.str (answer_chain query (request_chain api_spec query) raw)) := by
  intro rc ac httpGet api_spec query
  refine ⟨?_, ?_, ?_⟩
  · cases h : httpGet (rc api_spec query) <;>
      simp [MyAPISearch_run, APIChain_invoke, h]
  · cases h : httpGet (rc api_spec query) <;>
      simp [MyAPISearch_run, APIChain_invoke, h]
  · intro raw h
    simp [MyAPISearch_run, APIChain_invoke, h]

/-- Claim C4 (witness): a concrete invocation issues exactly one request and
returns the summarized response. -/
theorem C4_witness :
    (MyAPISearch_run (fun _ _ => ⟨"GET", "https://api.kraken.com/0/public/Ticker?pair=XBTUSD"⟩)
      (fun _ _ raw => raw) (fun _ => .ok "ticker-body") "kraken docs" "price of bitcoin").2.length = 1 ∧
    (MyAPISearch_run (fun _ _ => ⟨"GET", "https://api.kraken.com/0/public/Ticker?pair=XBTUSD"⟩)
      (fun _ _ raw => raw) (fun _ => .ok "ticker-body") "kraken docs" "price of bitcoin").1
      = PyVal.str "ticker-body" := by
  have h := C4_apichain_two_stage
    (fun _ _ => ⟨"GET", "https://api.kraken.com/0/public/Ticker?pair=XBTUSD"⟩)
    (fun _ _ raw => raw) (fun _ => .ok "ticker-body") "kraken docs" "price of bitcoin"
  exact ⟨h.2.1, h.2.2 "ticker-body" rfl⟩

/-- Claim C5: `MySimpleAPISearch` issues exactly one GET to the single fixed
endpoint `https://api.countdownapi.com/request`; in its parameter set the
`type` and `ebay_domain` entries are the fixed constants `search` and
`ebay.com` whatever the inputs, `search_term` is the input query, `api_key`
is the caller-supplied key; and on a successful response the observation is
the JSON-serialized response with no oracle summarization stage (the function
takes no oracle at all). -/
theorem C5_simple_api_fixed_request :
    ∀ (R J : Type) (httpGet : String → List (String × String) → Except PyExn R)
      (jsonOf : R → Except PyExn J) (dumps : J → String) (api_key query : String),
      (MySimpleAPISearch_run httpGet jsonOf dumps api_key query).2
        = [(countdown_url, MySimpleAPISearch_params api_key query)] ∧
      (MySimpleAPISearch_run httpGet jsonOf dumps api_key query).2.length = 1 ∧
      (MySimpleAPISearch_params api_key query).lookup "type" = some "search" ∧
      (MySimpleAPISearch_params api_key query).lookup "ebay_domain" = some "ebay.com" ∧
      (MySimpleAPISearch_params api_key query).lookup "search_term" = some query ∧
      (MySimpleAPISearch_params api_key query).lookup "api_key" = some api_key ∧
      (∀ r j, httpGet countdown_url (MySimpleAPISearch_params api_key query) = .ok r →
        jsonOf r = .ok j →
        (MySimpleAPISearch_run httpGet jsonOf dumps api_key query).1
          = Except.ok (PyVal.str (dumps j))) := by
  intro R J httpGet jsonOf dumps api_key query
  refine ⟨rfl, rfl, rfl, rfl, rfl, rfl, ?_⟩
  intro r j h1 h2
  simp [MySimpleAPISearch_run, h1, h2]

/-- Claim C5 (witness): a concrete call with the demo key issues one request
and passes the response through unchanged. -/
theorem C5_witness :
    (MySimpleAPISearch_run (R := String) (J := String) (fun _ _ => .ok "ebay results")
      (fun r => .ok r) (fun j => j) "demo" "memory cards").1
      = Except.ok (PyVal.str "ebay results") ∧
    (MySimpleAPISearch_run (R := String) (J := String) (fun _ _ => .ok "ebay results")
      (fun r => .ok r) (fun j => j) "demo" "memory cards").2.length = 1 := by
  have h := C5_simple_api_fixed_request String String (fun _ _ => .ok "ebay results")
    (fun r => .ok r) (fun j => j) "demo" "memory cards"
  exact ⟨h.2.2.2.2.2.2 "ebay results" "ebay results" rfl rfl, h.2.1⟩

/-- Claim C6: for every run of the (spec-modelled) reasoning loop, the number
of recorded turns in the transcript never exceeds `max_iterations`, and when
the oracle never converges (it requests tool calls on every turn) the run is
forced to terminate with `MaxStepsExceeded`, having recorded exactly
`max_iterations` turns. -/
theorem C6_transcript_bounded :
    ∀ (oracle : List Turn → Except PyExn OracleResponse)
      (tools : String → String → String) (max_iterations : Nat),
      (runLoop oracle tools max_iterations).transcript.length ≤ max_iterations ∧
      ((∀ tr, ∃ calls, oracle tr = .ok (.toolCalls calls)) →
        (runLoop oracle tools max_iterations).terminated_by = .maxStepsExceeded ∧
        (runLoop oracle tools max_iterations).transcript.length = max_iterations) := by
  intro oracle tools m
  constructor
  · have h := runLoopAux_length_le oracle tools m []
    simpa [runLoop] using h
  · intro h
    have h2 := runLoopAux_all_toolCalls oracle tools h m []
    simpa [runLoop] using h2

/-- Claim C6 (witness): with an oracle that always requests one more Searcher
call and `max_iterations = 5`, the run terminates with `MaxStepsExceeded` and
the transcript holds exactly 5 turns. -/
theorem C6_witness :
    (runLoop (fun _ => .ok (.toolCalls [("Searcher", "jobs in Dallas")]))
      (fun _ _ => "observation") 5).transcript.length ≤ 5 ∧
    (runLoop (fun _ => .ok (.toolCalls [("Searcher", "jobs in Dallas")]))
      (fun _ _ => "observation") 5).terminated_by = TerminatedBy.maxStepsExceeded ∧
    (runLoop (fun _ => .ok (.toolCalls [("Searcher", "jobs in Dallas")]))
      (fun _ _ => "observation") 5).transcript.length = 5 := by
  have h := C6_transcript_bounded (fun _ => .ok (.toolCalls [("Searcher", "jobs in Dallas")]))
    (fun _ _ => "observation") 5
  have h2 := h.2 (fun tr => ⟨[("Searcher", "jobs in Dallas")], rfl⟩)
  exact ⟨h.1, h2.1, h2.2⟩

/-- Claim C7: in each of the three tool registries handed to an agent
executor, tool names are unique within that registry.  (Name and description
are fixed class attributes; nothing in the notebooks mutates them after the
registries are built, and in this embedding the registries are constants.) -/
theorem C7_registry_names_unique :
    (bing_tools.map ToolSpec.name).Nodup ∧
    (apisearch_tools.map ToolSpec.name).Nodup ∧
    (simple_apisearch_tools.map ToolSpec.name).Nodup := by
  refine ⟨?_, ?_, ?_⟩ <;> decide

/-- Claim C8: calling WebSearch, PageFetch, or KeylessAPICall twice with
identical input against a static backing resource (the same provider, HTTP
and JSON functions) yields byte-identical observations — in particular,
observations describing the same underlying facts — because each embedded
tool body is a pure function of its input and its backend. -/
theorem C8_idempotent_tools :
    ∀ (t : MyBingSearch) (bingResults : String → Nat → List SearchResult) (query : String)
      (httpPage : String → String) (url : String)
      (R J : Type) (httpGet : String → List (String × String) → Except PyExn R)
      (jsonOf : R → Except PyExn J) (dumps : J → String) (api_key q : String),
      (callTwice (MyBingSearch_run t bingResults) query).1
        = (callTwice (MyBingSearch_run t bingResults) query).2 ∧
      (callTwice (fetch_web_page httpPage) url).1
        = (callTwice (fetch_web_page httpPage) url).2 ∧
      (callTwice (MySimpleAPISearch_run httpGet jsonOf dumps api_key) q).1
        = (callTwice (MySimpleAPISearch_run httpGet jsonOf dumps api_key) q).2 := by
  intros
  exact ⟨rfl, rfl, rfl⟩

/-- Claim C9: for every query, the asynchronous entry points of both API
tools unconditionally raise
`NotImplementedError("This Tool does not support async")`. -/
theorem C9_arun_not_implemented :
    ∀ query : String,
      MyAPISearch_arun query
        = Except.error ⟨"NotImplementedError", "This Tool does not support async"⟩ ∧
      MySimpleAPISearch_arun query
        = Except.error ⟨"NotImplementedError", "This Tool does not support async"⟩ := by
  intro query
  exact ⟨rfl, rfl⟩

/-- Claim C10: `printmd` displays its argument with every `$` replaced by
`USD `: no displayed text ever contains a dollar sign, and `"$9.99"` is shown
as `"USD 9.99"`. -/
theorem C10_printmd_no_dollar :
    (∀ s : String, '$' ∉ (printmd_text s).data) ∧
    printmd_text "$9.99" = "USD 9.99" := by
  refine ⟨fun s => replaceDollar_no_dollar s.data, ?_⟩
  decide

end Spec2Proof
